import Mathlib

/-!
A shallow embedding of `scripts/mqtt_wakeup.py`: a command-line tool that
parses arguments, connects to an MQTT broker (waiting up to 5 seconds in
100 ms polls for the connect callback to set a `connected` flag), publishes
one JSON wakeup message with QoS 1, and tears the client down in a
`finally` block.

External effects (the paho-mqtt client and the broker) are modelled by an
environment: the stream of callback events delivered during the wait loop,
the immediate status returned by `client.publish`, the send-time timestamp,
and an optional exception (KeyboardInterrupt or any other error) injected
at one of the points where the Python try-block can be interrupted.  Calls
into the client that matter for the spec (loop_start, loop_stop,
disconnect, publish) are recorded in an action trace.
-/

namespace MqttWakeup

/-- Parsed invocation parameters (`argparse` namespace built by
`parse_args`, mqtt_wakeup.py lines 21-31). -/
structure Args where
  device_id : String
  server : String
  port : Int
  username : String
  password : String
  topic : String
  reason : String
  deriving DecidableEq, Repr

/-- An argument vector for this parser, abstracted to which flags are
supplied and with which values.  `none` means the flag is absent from
argv; `some v` means `--flag v` appears. -/
structure Argv where
  device_id : Option String
  server : Option String
  port : Option Int
  username : Option String
  password : Option String
  topic : Option String
  reason : Option String
  deriving DecidableEq, Repr

/-- `parse_args` (lines 21-31): `--device-id` is `required=True`, all other
flags have defaults (`localhost`, `1883`, `""`, `""`, `""`,
`remote_wakeup`).  When a required argument is missing, argparse calls
`ArgumentParser.error`, which prints a usage message and terminates the
process via `sys.exit(2)`; this is modelled as `Except.error 2` carrying
the process exit status. -/
def parse_args (a : Argv) : Except Int Args :=
  match a.device_id with
  | none => Except.error 2
  | some d =>
      Except.ok
        { device_id := d
          server := a.server.getD "localhost"
          port := a.port.getD 1883
          username := a.username.getD ""
          password := a.password.getD ""
          topic := a.topic.getD ""
          reason := a.reason.getD "remote_wakeup" }

/-- The shared mutable state of the script: the global `connected` flag
(line 18), written by the connect/disconnect callbacks. -/
structure State where
  connected : Bool
  deriving DecidableEq, Repr

/-- `on_connect` (lines 34-41): sets `connected := True` exactly when the
result code is 0; otherwise only prints. -/
def on_connect (rc : Int) (s : State) : State :=
  if rc = 0 then { s with connected := true } else s

/-- `on_disconnect` (lines 44-48): sets `connected := False`. -/
def on_disconnect (_rc : Int) (s : State) : State :=
  { s with connected := false }

/-- A callback event delivered by the client's background network loop. -/
inductive ConnEvent where
  | onConnectEv (rc : Int)
  | onDisconnectEv (rc : Int)
  deriving DecidableEq, Repr

/-- Dispatch of an optional callback event to the registered handlers. -/
def applyEvent : Option ConnEvent → State → State
  | none, s => s
  | some (ConnEvent.onConnectEv rc), s => on_connect rc s
  | some (ConnEvent.onDisconnectEv rc), s => on_disconnect rc s

/-- The wait budget: `max_wait = 5` seconds polled in `time.sleep(0.1)`
steps (lines 76-79), i.e. 50 poll ticks. -/
def maxWaitTicks : Nat := 50

/-- The busy-wait loop of `connect_mqtt` (lines 76-79):
`while not connected and (time.time() - start_time) < max_wait:
 time.sleep(0.1)`.  One callback event (at most) is delivered per 100 ms
tick; the loop re-checks the flag after each tick.  Returns the final
state together with the index after the last executed tick (the number of
polls performed). -/
def waitLoop (ev : Nat → Option ConnEvent) : Nat → Nat → State → State × Nat
  | 0, i, s => (s, i)
  | Nat.succ fuel, i, s =>
      if s.connected then (s, i)
      else waitLoop ev fuel (i + 1) (applyEvent (ev i) s)

/-- The full bounded wait starting from `connected = False`. -/
def connectWait (ev : Nat → Option ConnEvent) : State × Nat :=
  waitLoop ev maxWaitTicks 0 { connected := false }

/-- Client calls recorded in the trace: `loop_start` (line 73),
`loop_stop` (lines 83, 150), `disconnect` (line 151) and
`publish(topic, payload, qos)` (line 107). -/
inductive Action where
  | loopStart
  | loopStop
  | disconnectCall
  | publishCall (topic : String) (payload : String) (qos : Nat)
  deriving DecidableEq, Repr

/-- `connect_mqtt` (lines 50-86), after the client object is created and
`client.connect` returned: starts the network loop, waits for the
`connected` flag, and on timeout stops the loop and returns `False`. -/
def connect_mqtt (ev : Nat → Option ConnEvent) : Bool × List Action :=
  if (connectWait ev).1.connected then (true, [Action.loopStart])
  else (false, [Action.loopStart, Action.loopStop])

/-- Topic selection of `send_wakeup_message` (lines 91-95):
`if args.topic: wakeup_topic = args.topic else:
 wakeup_topic = f"device/{args.device_id}/wakeup"`.  Python string
truthiness is non-emptiness. -/
def wakeup_topic (device_id topic : String) : String :=
  if topic ≠ "" then topic else "device/" ++ device_id ++ "/wakeup"

/-- A hexadecimal digit character, lower case, as produced by Python's
json encoder for `\uXXXX` escapes. -/
def hexDigit (n : Nat) : Char :=
  if n < 10 then Char.ofNat (48 + n) else Char.ofNat (87 + n)

/-- Per-character escaping of `json.dumps` with `ensure_ascii=False`
(the `ESCAPE` regex of Python's json encoder): only `"`, `\` and control
characters below 0x20 are escaped, the latter with short escapes for
backspace, tab, newline, form feed and carriage return and `\u00XX`
otherwise; every other character, non-ASCII included, is kept literally. -/
def jsonEscapeChar (c : Char) : String :=
  if c = '"' then "\\\""
  else if c = '\\' then "\\\\"
  else if c = '\n' then "\\n"
  else if c = '\r' then "\\r"
  else if c = '\t' then "\\t"
  else if c = Char.ofNat 8 then "\\b"
  else if c = Char.ofNat 12 then "\\f"
  else if c.toNat < 32 then
    "\\u00" ++ String.singleton (hexDigit (c.toNat / 16)) ++
      String.singleton (hexDigit (c.toNat % 16))
  else String.singleton c

/-- Escape every character of a character list. -/
def jsonEscapeList : List Char → String
  | [] => ""
  | c :: cs => jsonEscapeChar c ++ jsonEscapeList cs

/-- Escape a string as the body of a JSON string literal. -/
def jsonEscape (s : String) : String :=
  jsonEscapeList s.data

/-- A JSON string literal: quotes around the escaped body. -/
def jsonStr (s : String) : String :=
  "\"" ++ jsonEscape s ++ "\""

/-- JSON values occurring in the wakeup message: strings and integers. -/
inductive JsonVal where
  | str (s : String)
  | int (n : Int)
  deriving DecidableEq, Repr

/-- Serialization of a single value, as Python's json encoder renders it
(integers in decimal via `repr`). -/
def dumpVal : JsonVal → String
  | JsonVal.str s => jsonStr s
  | JsonVal.int n => toString n

/-- The entries of a JSON object joined with the default item separator
`", "` and key separator `": "` of `json.dumps`. -/
def dumpEntries : List (String × JsonVal) → String
  | [] => ""
  | [kv] => jsonStr kv.1 ++ ": " ++ dumpVal kv.2
  | kv :: rest => jsonStr kv.1 ++ ": " ++ dumpVal kv.2 ++ ", " ++ dumpEntries rest

/-- `json.dumps` on a dict with the given insertion-ordered entries,
`ensure_ascii=False`. -/
def dumps (kvs : List (String × JsonVal)) : String :=
  "\x7b" ++ dumpEntries kvs ++ "\x7d"

/-- The wakeup message dict in insertion order (lines 98-103). -/
def wakeup_message (device_id reason : String) (timestamp : Int) :
    List (String × JsonVal) :=
  [("type", JsonVal.str "wakeup"),
   ("device_id", JsonVal.str device_id),
   ("reason", JsonVal.str reason),
   ("timestamp", JsonVal.int timestamp)]

/-- The serialized payload (line 106):
`json.dumps(wakeup_message, ensure_ascii=False)`. -/
def wakeup_payload (device_id reason : String) (timestamp : Int) : String :=
  dumps (wakeup_message device_id reason timestamp)

/-- `send_wakeup_message` (lines 89-117): builds topic and payload,
publishes with `qos=1`, and returns `True` exactly when the immediate
status `result[0]` is 0.  The status is supplied by the environment. -/
def send_wakeup_message (args : Args) (timestamp : Int) (status : Int) :
    Bool × List Action :=
  let topic := wakeup_topic args.device_id args.topic
  let payload := wakeup_payload args.device_id args.reason timestamp
  if status = 0 then (true, [Action.publishCall topic payload 1])
  else (false, [Action.publishCall topic payload 1])

/-- An exception reaching `main`'s handlers: `KeyboardInterrupt`
(line 143) or any other `Exception` (line 145). -/
inductive Exc where
  | interrupt
  | unexpected
  deriving DecidableEq, Repr

/-- Points of the try-block where an injected exception can surface: while
`client.connect` is being called (after the client object exists, before
the loop starts), after `connect_mqtt` returned `True` (before the publish
takes effect), or after the publish succeeded (during the final
`time.sleep(1)`). -/
inductive ExcPoint where
  | atConnectCall
  | afterConnect
  | afterPublish
  deriving DecidableEq, Repr

/-- The external world of one invocation: the callback events the
background loop delivers at each poll tick, the immediate publish status,
the value of `int(time.time())` at send time, and an optionally injected
exception. -/
structure Env where
  connEvent : Nat → Option ConnEvent
  publishStatus : Int
  sendTime : Int
  exc : Option (ExcPoint × Exc)

/-- The body of `main`'s try-block (lines 128-141): `Except.ok code` for a
plain `return code`, `Except.error e` for an exception caught by the
handlers; paired with the trace of client calls made inside the block. -/
def tryBody (args : Args) (env : Env) : Except Exc Int × List Action :=
  match env.exc with
  | some (ExcPoint.atConnectCall, e) => (Except.error e, [])
  | _ =>
      let c := connect_mqtt env.connEvent
      if c.1 = false then (Except.ok 1, c.2)
      else
        match env.exc with
        | some (ExcPoint.afterConnect, e) => (Except.error e, c.2)
        | _ =>
            let p := send_wakeup_message args env.sendTime env.publishStatus
            if p.1 = false then (Except.ok 1, c.2 ++ p.2)
            else
              match env.exc with
              | some (ExcPoint.afterPublish, e) => (Except.error e, c.2 ++ p.2)
              | _ => (Except.ok 0, c.2 ++ p.2)

/-- The `finally` block (lines 147-152): the client object is created at
the top of `connect_mqtt` before any of the modelled exception points, so
`if client:` holds on every path through the try-block and the cleanup
always runs `loop_stop()` then `disconnect()`. -/
def shutdownTrace : List Action :=
  [Action.loopStop, Action.disconnectCall]

/-- `main` (lines 120-154) after argument parsing: runs the try-block,
appends the `finally` cleanup, and returns the try-block's code on a plain
return or `1` (line 154) when an exception was caught. -/
def main (args : Args) (env : Env) : Int × List Action :=
  match tryBody args env with
  | (Except.ok c, tr) => (c, tr ++ shutdownTrace)
  | (Except.error _, tr) => (1, tr ++ shutdownTrace)

/-- The whole process (lines 157-158): `exit(main())`, where `parse_args`
terminates the process with status 2 before the try-block on a usage
error. -/
def process (a : Argv) (env : Env) : Int × List Action :=
  match parse_args a with
  | Except.error c => (c, [])
  | Except.ok args => main args env

/-- Number of occurrences of one action in a trace. -/
def countA (x : Action) : List Action → Nat
  | [] => 0
  | b :: l => (if b = x then 1 else 0) + countA x l

/-- `true` exactly on environments that drive the connection-timeout path:
the connect call itself does not raise, and the wait loop ends with
`connected = False`. -/
def timesOut (env : Env) : Bool :=
  match env.exc with
  | some (ExcPoint.atConnectCall, _) => false
  | _ => !(connectWait env.connEvent).1.connected

/-! ## Helper lemmas -/

/-- If no successful-connect notification is ever delivered, the wait loop
keeps `connected = False` and consumes its whole fuel. -/
theorem waitLoop_no_success (ev : Nat → Option ConnEvent)
    (h : ∀ i rc, ev i = some (ConnEvent.onConnectEv rc) → rc ≠ 0) :
    ∀ fuel i, waitLoop ev fuel i { connected := false } =
      ({ connected := false }, i + fuel) := by
  intro fuel
  induction fuel with
  | zero => intro i; simp [waitLoop]
  | succ n ih =>
      intro i
      have hev : applyEvent (ev i) { connected := false } =
          { connected := false } := by
        cases hE : ev i with
        | none => rfl
        | some e =>
            cases e with
            | onConnectEv rc =>
                have hrc := h i rc hE
                simp [applyEvent, on_connect, hrc]
            | onDisconnectEv rc => simp [applyEvent, on_disconnect]
      rw [waitLoop]
      simp [hev, ih (i + 1)]
      omega

/-- The bounded wait fails after the full 50 polls when no successful
connect notification arrives. -/
theorem connectWait_no_success (ev : Nat → Option ConnEvent)
    (h : ∀ i rc, ev i = some (ConnEvent.onConnectEv rc) → rc ≠ 0) :
    connectWait ev = ({ connected := false }, maxWaitTicks) := by
  unfold connectWait
  rw [waitLoop_no_success ev h maxWaitTicks 0]
  simp

/-- The topic actually used for the publish is never the empty string. -/
theorem wakeup_topic_ne_empty (d t : String) : wakeup_topic d t ≠ "" := by
  unfold wakeup_topic
  by_cases h : t = ""
  · subst h
    rw [if_neg (by simp)]
    intro hcontra
    have h2 : (("device/" ++ d) ++ "/wakeup").data = ("" : String).data :=
      congrArg String.data hcontra
    rw [String.data_append] at h2
    exact absurd (List.append_eq_nil.mp h2).2 (by decide)
  · simp [h]

/-- A character that is neither `"` nor `\` nor a control character is
kept literally by the json escaper; in particular every non-ASCII
character is kept literally. -/
theorem jsonEscapeChar_plain (c : Char) (h1 : c ≠ '"') (h2 : c ≠ '\\')
    (h3 : 32 ≤ c.toNat) : jsonEscapeChar c = String.singleton c := by
  have hn : c ≠ '\n' := by intro h; subst h; exact absurd h3 (by decide)
  have hr : c ≠ '\r' := by intro h; subst h; exact absurd h3 (by decide)
  have ht : c ≠ '\t' := by intro h; subst h; exact absurd h3 (by decide)
  have hb : c ≠ Char.ofNat 8 := by intro h; subst h; exact absurd h3 (by decide)
  have hf : c ≠ Char.ofNat 12 := by intro h; subst h; exact absurd h3 (by decide)
  have h32 : ¬(c.toNat < 32) := by omega
  simp [jsonEscapeChar, h1, h2, hn, hr, ht, hb, hf, h32]

/-- Lists of plain characters are serialized identically. -/
theorem jsonEscapeList_plain (l : List Char)
    (h : ∀ c ∈ l, c ≠ '"' ∧ c ≠ '\\' ∧ 32 ≤ c.toNat) :
    jsonEscapeList l = String.mk l := by
  induction l with
  | nil => rfl
  | cons c cs ih =>
      obtain ⟨h1, h2, h3⟩ := h c (List.mem_cons_self c cs)
      rw [jsonEscapeList, jsonEscapeChar_plain c h1 h2 h3,
        ih (fun x hx => h x (List.mem_cons_of_mem c hx))]
      exact rfl

/-- Strings of plain characters are their own escaped form. -/
theorem jsonEscape_plain (s : String)
    (h : ∀ c ∈ s.data, c ≠ '"' ∧ c ≠ '\\' ∧ 32 ≤ c.toNat) :
    jsonEscape s = s := by
  unfold jsonEscape
  rw [jsonEscapeList_plain s.data h]

/-- Exhaustive characterization of one invocation after successful
argument parsing: exit code and client-call trace on every terminal
path. -/
theorem main_cases (args : Args) (env : Env) :
    main args env =
      match env.exc with
      | some (ExcPoint.atConnectCall, _) =>
          (1, [Action.loopStop, Action.disconnectCall])
      | some (ExcPoint.afterConnect, _) =>
          if (connectWait env.connEvent).1.connected then
            (1, [Action.loopStart, Action.loopStop, Action.disconnectCall])
          else
            (1, [Action.loopStart, Action.loopStop, Action.loopStop,
              Action.disconnectCall])
      | some (ExcPoint.afterPublish, _) =>
          if (connectWait env.connEvent).1.connected then
            (1, [Action.loopStart,
              Action.publishCall (wakeup_topic args.device_id args.topic)
                (wakeup_payload args.device_id args.reason env.sendTime) 1,
              Action.loopStop, Action.disconnectCall])
          else
            (1, [Action.loopStart, Action.loopStop, Action.loopStop,
              Action.disconnectCall])
      | none =>
          if (connectWait env.connEvent).1.connected then
            ((if env.publishStatus = 0 then 0 else 1),
              [Action.loopStart,
               Action.publishCall (wakeup_topic args.device_id args.topic)
                 (wakeup_payload args.device_id args.reason env.sendTime) 1,
               Action.loopStop, Action.disconnectCall])
          else
            (1, [Action.loopStart, Action.loopStop, Action.loopStop,
              Action.disconnectCall]) := by
  rcases env with ⟨ev, st, T, exc⟩
  rcases exc with _ | ⟨pt, e⟩
  · by_cases hc : (connectWait ev).1.connected
    · by_cases hst : st = 0 <;>
        simp [main, tryBody, connect_mqtt, send_wakeup_message, shutdownTrace,
          hc, hst]
    · simp [main, tryBody, connect_mqtt, shutdownTrace, hc]
  · cases pt
    · simp [main, tryBody, shutdownTrace]
    · by_cases hc : (connectWait ev).1.connected <;>
        simp [main, tryBody, connect_mqtt, shutdownTrace, hc]
    · by_cases hc : (connectWait ev).1.connected
      · by_cases hst : st = 0 <;>
          simp [main, tryBody, connect_mqtt, send_wakeup_message, shutdownTrace,
            hc, hst]
      · simp [main, tryBody, connect_mqtt, shutdownTrace, hc]

/-! ## Claim theorems -/

/-- Claim C1: the process returns exit code 0 if and only if the run is a
clean success path: argument parsing succeeded, the `connected` flag
became true within the 5-second wait, the publish call's immediate status
was 0, and no interruption or unexpected error occurred; on every other
path a non-zero code is returned. -/
theorem exit_code_iff (a : Argv) (env : Env) :
    (process a env).1 = 0 ↔
      (a.device_id ≠ none ∧ (connectWait env.connEvent).1.connected = true ∧
        env.publishStatus = 0 ∧ env.exc = none) := by
  cases hd : a.device_id with
  | none => simp [process, parse_args, hd]
  | some d =>
      simp only [process, parse_args, hd]
      rw [main_cases]
      rcases henv : env.exc with _ | ⟨pt, e⟩
      · by_cases hc : (connectWait env.connEvent).1.connected
        · by_cases hst : env.publishStatus = 0 <;> simp [hc, hst]
        · simp [hc]
      · cases pt <;>
          [skip;
           by_cases hc : (connectWait env.connEvent).1.connected <;> simp [hc];
           by_cases hc : (connectWait env.connEvent).1.connected <;> simp [hc]]
        simp

/-- Witness for C1: a run with a successful connect notification at the
first poll, publish status 0 and no exception exits with code 0. -/
theorem exit_code_iff_witness :
    (process ⟨some "dev42", none, none, none, none, none, none⟩
      { connEvent := fun _ => some (ConnEvent.onConnectEv 0),
        publishStatus := 0, sendTime := 1712345678, exc := none }).1 = 0 :=
  (exit_code_iff _ _).mpr ⟨by decide, by decide, rfl, rfl⟩

/-- Claim C3 counterexample: when `--device-id` is missing, argparse
terminates the process with status 2, which is neither 0 nor 1. -/
theorem exit_code_two_cex :
    (process ⟨none, none, none, none, none, none, none⟩
      { connEvent := fun _ => none, publishStatus := 0, sendTime := 0,
        exc := none }).1 = 2 ∧
    ¬((process ⟨none, none, none, none, none, none, none⟩
      { connEvent := fun _ => none, publishStatus := 0, sendTime := 0,
        exc := none }).1 = 0 ∨
      (process ⟨none, none, none, none, none, none, none⟩
        { connEvent := fun _ => none, publishStatus := 0, sendTime := 0,
          exc := none }).1 = 1) := by
  exact ⟨rfl, by decide⟩

/-- Claim C3 (amended): the process exits with code 0 on success and 1 on
any runtime failure (connection timeout, publish failure, interruption,
unexpected error); the one exception is a missing required argument, where
argparse terminates the process with the usage-error status 2. -/
theorem exit_codes_amended (a : Argv) (env : Env) :
    (a.device_id = none ∧ (process a env).1 = 2) ∨
    (process a env).1 = 0 ∨ (process a env).1 = 1 := by
  cases hd : a.device_id with
  | none => exact Or.inl ⟨rfl, by simp [process, parse_args, hd]⟩
  | some d =>
      right
      simp only [process, parse_args, hd]
      rw [main_cases]
      rcases henv : env.exc with _ | ⟨pt, e⟩
      · by_cases hc : (connectWait env.connEvent).1.connected
        · by_cases hst : env.publishStatus = 0 <;> simp [hc, hst]
        · simp [hc]
      · cases pt <;>
          [simp;
           by_cases hc : (connectWait env.connEvent).1.connected <;> simp [hc];
           by_cases hc : (connectWait env.connEvent).1.connected <;> simp [hc]]

/-- Witness for C3 (amended): concrete instance of the amended claim. -/
theorem exit_codes_amended_witness :
    ((⟨some "dev42", none, none, none, none, none, none⟩ : Argv).device_id = none ∧
      (process ⟨some "dev42", none, none, none, none, none, none⟩
        { connEvent := fun _ => none, publishStatus := 0, sendTime := 0,
          exc := none }).1 = 2) ∨
    (process ⟨some "dev42", none, none, none, none, none, none⟩
      { connEvent := fun _ => none, publishStatus := 0, sendTime := 0,
        exc := none }).1 = 0 ∨
    (process ⟨some "dev42", none, none, none, none, none, none⟩
      { connEvent := fun _ => none, publishStatus := 0, sendTime := 0,
        exc := none }).1 = 1 :=
  exit_codes_amended _ _

/-- Claim C2 counterexample: on the connection-timeout path the network
loop is stopped twice — once inside `connect_mqtt` (line 83) and once more
by the `finally` cleanup (line 150) — so "stopped exactly once" fails,
while the connection is closed exactly once. -/
theorem shutdown_once_cex :
    countA Action.loopStop
      (main ⟨"dev42", "localhost", 1883, "", "", "", "remote_wakeup"⟩
        { connEvent := fun _ => none, publishStatus := 0, sendTime := 0,
          exc := none }).2 = 2 ∧
    countA Action.disconnectCall
      (main ⟨"dev42", "localhost", 1883, "", "", "", "remote_wakeup"⟩
        { connEvent := fun _ => none, publishStatus := 0, sendTime := 0,
          exc := none }).2 = 1 := by
  exact ⟨rfl, rfl⟩

/-- Claim C2 (amended): on every terminal path the connection is closed
(`disconnect`) exactly once; the network loop is stopped exactly once on
every path except the connection-timeout path, where `loop_stop` is called
twice (once in `connect_mqtt`, once in the `finally` cleanup). -/
theorem shutdown_counts (args : Args) (env : Env) :
    countA Action.disconnectCall (main args env).2 = 1 ∧
    countA Action.loopStop (main args env).2 =
      (if timesOut env then 2 else 1) := by
  rw [main_cases]
  rcases henv : env.exc with _ | ⟨pt, e⟩
  · by_cases hc : (connectWait env.connEvent).1.connected
    · by_cases hst : env.publishStatus = 0 <;>
        simp [hc, hst, countA, timesOut, henv]
    · simp [hc, countA, timesOut, henv]
  · cases pt <;>
      [simp [countA, timesOut, henv];
       by_cases hc : (connectWait env.connEvent).1.connected <;>
         simp [hc, countA, timesOut, henv];
       by_cases hc : (connectWait env.connEvent).1.connected <;>
         simp [hc, countA, timesOut, henv]]

/-- Witness for C2 (amended): concrete instance on a successful run. -/
theorem shutdown_counts_witness :
    countA Action.disconnectCall
      (main ⟨"dev42", "localhost", 1883, "", "", "", "remote_wakeup"⟩
        { connEvent := fun _ => some (ConnEvent.onConnectEv 0),
          publishStatus := 0, sendTime := 0, exc := none }).2 = 1 ∧
    countA Action.loopStop
      (main ⟨"dev42", "localhost", 1883, "", "", "", "remote_wakeup"⟩
        { connEvent := fun _ => some (ConnEvent.onConnectEv 0),
          publishStatus := 0, sendTime := 0, exc := none }).2 =
      (if timesOut
          { connEvent := fun _ => some (ConnEvent.onConnectEv 0),
            publishStatus := 0, sendTime := 0, exc := none } then 2 else 1) :=
  shutdown_counts _ _

/-- Claim C4: if no successful-connect notification arrives during the
5-second poll window (and the connect call itself does not raise), then
`connect_mqtt` returns failure after stopping the loop, and no publish is
ever attempted in the invocation. -/
theorem timeout_no_publish (args : Args) (env : Env)
    (h1 : ∀ i rc, env.connEvent i = some (ConnEvent.onConnectEv rc) → rc ≠ 0)
    (h2 : ∀ e, env.exc ≠ some (ExcPoint.atConnectCall, e)) :
    connect_mqtt env.connEvent = (false, [Action.loopStart, Action.loopStop]) ∧
    ∀ t p q, Action.publishCall t p q ∉ (main args env).2 := by
  have hw := connectWait_no_success env.connEvent h1
  have hc : (connectWait env.connEvent).1.connected = false := by rw [hw]
  constructor
  · simp [connect_mqtt, hc]
  · intro t p q
    rw [main_cases]
    rcases henv : env.exc with _ | ⟨pt, e⟩
    · simp [hc]
    · cases pt
      · exact absurd henv (h2 e)
      · simp [hc]
      · simp [hc]

/-- Witness for C4: with only failed-connect notifications the run times
out and its trace holds no publish call. -/
theorem timeout_no_publish_witness :
    connect_mqtt (fun _ => some (ConnEvent.onConnectEv 1)) =
      (false, [Action.loopStart, Action.loopStop]) ∧
    Action.publishCall "device/dev42/wakeup" "payload" 1 ∉
      (main ⟨"dev42", "localhost", 1883, "", "", "", "remote_wakeup"⟩
        { connEvent := fun _ => some (ConnEvent.onConnectEv 1),
          publishStatus := 0, sendTime := 0, exc := none }).2 := by
  have h := timeout_no_publish
    ⟨"dev42", "localhost", 1883, "", "", "", "remote_wakeup"⟩
    { connEvent := fun _ => some (ConnEvent.onConnectEv 1),
      publishStatus := 0, sendTime := 0, exc := none }
    (by intro i rc hE; simp at hE; omega)
    (by intro e hE; exact Option.noConfusion hE)
  exact ⟨h.1, h.2 _ _ _⟩

/-- Claim C5 counterexample: supplying the override `--topic ""` does not
make the target topic equal the supplied value — the derived topic is used
instead, so "exactly the supplied value whenever an override is supplied"
fails at the empty override. -/
theorem topic_override_cex :
    parse_args ⟨some "abc123", none, none, none, none, some "", none⟩ =
      Except.ok ⟨"abc123", "localhost", 1883, "", "", "", "remote_wakeup"⟩ ∧
    wakeup_topic "abc123" "" = "device/abc123/wakeup" ∧
    wakeup_topic "abc123" "" ≠ "" := by
  exact ⟨rfl, rfl, by decide⟩

/-- Claim C5 (amended): with no `--topic`, or with an empty `--topic`
override, the target topic is exactly `device/<device_id>/wakeup`; with a
non-empty `--topic` override the target topic is exactly the supplied
value, regardless of device id. -/
theorem wakeup_topic_correct (a : Argv) (args : Args) (d : String)
    (hd : a.device_id = some d) (hp : parse_args a = Except.ok args) :
    wakeup_topic args.device_id args.topic =
      (match a.topic with
       | some t => if t = "" then "device/" ++ d ++ "/wakeup" else t
       | none => "device/" ++ d ++ "/wakeup") := by
  unfold parse_args at hp
  rw [hd] at hp
  injection hp with hp
  subst hp
  rcases ht : a.topic with _ | t
  · simp [ht, wakeup_topic]
  · by_cases he : t = "" <;> simp [ht, wakeup_topic, he]

/-- Witness for C5 (amended): a non-empty override is used verbatim. -/
theorem wakeup_topic_correct_witness :
    wakeup_topic
      (⟨"abc123", "localhost", 1883, "", "", "custom/topic", "remote_wakeup"⟩ :
        Args).device_id
      (⟨"abc123", "localhost", 1883, "", "", "custom/topic", "remote_wakeup"⟩ :
        Args).topic = "custom/topic" := by
  have h := wakeup_topic_correct
    ⟨some "abc123", none, none, none, none, some "custom/topic", none⟩
    ⟨"abc123", "localhost", 1883, "", "", "custom/topic", "remote_wakeup"⟩
    "abc123" rfl rfl
  simpa using h

/-- Claim C6: for every device id, reason and timestamp whose strings
contain no characters the json encoder escapes (so in particular for
strings with non-ASCII characters, which are preserved literally under
`ensure_ascii=False`), the serialized payload is the single JSON document
with exactly the fields `type`, `device_id`, `reason`, `timestamp` in that
order and the given values. -/
theorem wakeup_payload_shape (d r : String) (T : Int)
    (hd : ∀ c ∈ d.data, c ≠ '"' ∧ c ≠ '\\' ∧ 32 ≤ c.toNat)
    (hr : ∀ c ∈ r.data, c ≠ '"' ∧ c ≠ '\\' ∧ 32 ≤ c.toNat) :
    wakeup_payload d r T =
      "\x7b\"type\": \"wakeup\", \"device_id\": \"" ++ d ++
        "\", \"reason\": \"" ++ r ++ "\", \"timestamp\": " ++ toString T ++
        "\x7d" := by
  have e1 : ("\x7b\"type\": \"wakeup\", \"device_id\": \"" : String) =
      "\x7b" ++ "\"" ++ "type" ++ "\"" ++ ": " ++ "\"" ++ "wakeup" ++ "\"" ++
        ", " ++ "\"" ++ "device_id" ++ "\"" ++ ": " ++ "\"" := rfl
  have e2 : ("\", \"reason\": \"" : String) =
      "\"" ++ ", " ++ "\"" ++ "reason" ++ "\"" ++ ": " ++ "\"" := rfl
  have e3 : ("\", \"timestamp\": " : String) =
      "\"" ++ ", " ++ "\"" ++ "timestamp" ++ "\"" ++ ": " := rfl
  have k1 : jsonEscape "type" = "type" := by decide
  have k2 : jsonEscape "wakeup" = "wakeup" := by decide
  have k3 : jsonEscape "device_id" = "device_id" := by decide
  have k4 : jsonEscape "reason" = "reason" := by decide
  have k5 : jsonEscape "timestamp" = "timestamp" := by decide
  rw [e1, e2, e3]
  simp only [wakeup_payload, dumps, wakeup_message, dumpEntries, dumpVal,
    jsonStr, k1, k2, k3, k4, k5, jsonEscape_plain d hd, jsonEscape_plain r hr]
  simp only [String.append_assoc]

/-- Witness for C6: concrete payload with a non-ASCII reason, preserved
literally. -/
theorem wakeup_payload_shape_witness :
    wakeup_payload "d1" "远程唤醒" 1712345678 =
      "\x7b\"type\": \"wakeup\", \"device_id\": \"d1\", \"reason\": \"远程唤醒\", \"timestamp\": 1712345678\x7d" := by
  have h := wakeup_payload_shape "d1" "远程唤醒" 1712345678
    (by decide) (by decide)
  exact h.trans (by decide)

/-- Claim C7: the publish is performed with QoS 1 and
`send_wakeup_message` reports success exactly when the publish call's
immediate return status is 0. -/
theorem publish_qos_status (args : Args) (T st : Int) :
    (send_wakeup_message args T st).2 =
      [Action.publishCall (wakeup_topic args.device_id args.topic)
        (wakeup_payload args.device_id args.reason T) 1] ∧
    ((send_wakeup_message args T st).1 = true ↔ st = 0) := by
  by_cases h : st = 0 <;> simp [send_wakeup_message, h]

/-- Witness for C7: concrete instance with a failing status 4. -/
theorem publish_qos_status_witness :
    ((send_wakeup_message
        ⟨"dev42", "localhost", 1883, "", "", "", "remote_wakeup"⟩ 0 4).1 =
      true ↔ (4 : Int) = 0) :=
  (publish_qos_status ⟨"dev42", "localhost", 1883, "", "", "", "remote_wakeup"⟩
    0 4).2

/-- Claim C8: parsing succeeds for every argument vector that supplies
`--device-id` and fails with the argparse usage error when it is omitted;
when parsing succeeds, every omitted optional flag takes its documented
default. -/
theorem parse_args_correct (a : Argv) :
    (a.device_id = none → parse_args a = Except.error 2) ∧
    (∀ d, a.device_id = some d → (parse_args a).isOk = true) ∧
    (∀ d args, a.device_id = some d → parse_args a = Except.ok args →
      args.device_id = d ∧
      (a.server = none → args.server = "localhost") ∧
      (a.port = none → args.port = 1883) ∧
      (a.username = none → args.username = "") ∧
      (a.password = none → args.password = "") ∧
      (a.reason = none → args.reason = "remote_wakeup")) := by
  refine ⟨fun h => by simp [parse_args, h], fun d hd => by simp [parse_args, hd, Except.isOk, Except.toBool], ?_⟩
  intro d args hd hp
  unfold parse_args at hp
  rw [hd] at hp
  injection hp with hp
  subst hp
  refine ⟨rfl, ?_, ?_, ?_, ?_, ?_⟩ <;> (intro h; simp [h])

/-- Witness for C8: parsing fails with status 2 without `--device-id` and
succeeds with it. -/
theorem parse_args_correct_witness :
    parse_args ⟨none, none, none, none, none, none, none⟩ = Except.error 2 ∧
    (parse_args ⟨some "dev42", none, none, none, none, none, none⟩).isOk =
      true :=
  ⟨(parse_args_correct ⟨none, none, none, none, none, none, none⟩).1 rfl,
   (parse_args_correct ⟨some "dev42", none, none, none, none, none, none⟩).2.1
     "dev42" rfl⟩

/-- Every publish call recorded in an invocation's trace targets the topic
computed by `wakeup_topic` from the parsed arguments. -/
theorem mem_trace_topic (args : Args) (env : Env) (t p : String) (q : Nat)
    (hmem : Action.publishCall t p q ∈ (main args env).2) :
    t = wakeup_topic args.device_id args.topic := by
  rw [main_cases] at hmem
  rcases henv : env.exc with _ | ⟨pt, e⟩ <;> rw [henv] at hmem
  · by_cases hc : (connectWait env.connEvent).1.connected
    · simp [hc] at hmem
      exact hmem.1
    · simp [hc] at hmem
  · cases pt
    · simp at hmem
    · by_cases hc : (connectWait env.connEvent).1.connected <;>
        simp [hc] at hmem
    · by_cases hc : (connectWait env.connEvent).1.connected
      · simp [hc] at hmem
        exact hmem.1
      · simp [hc] at hmem

/-- Claim C9: an explicitly supplied empty `--topic` override is
indistinguishable from omitting the flag — parsing yields the same
parameters — and since topic selection tests string truthiness, no
invocation ever publishes to an empty topic. -/
theorem empty_topic_indistinguishable (a : Argv) (args : Args) (env : Env) :
    (a.topic = some "" → parse_args a = parse_args { a with topic := none }) ∧
    (∀ t p q, Action.publishCall t p q ∈ (main args env).2 → t ≠ "") := by
  constructor
  · intro h
    cases hd : a.device_id <;> simp [parse_args, hd, h]
  · intro t p q hmem
    rw [mem_trace_topic args env t p q hmem]
    exact wakeup_topic_ne_empty _ _

/-- Witness for C9: `--topic ""` parses to the same parameters as no
`--topic`, and the topic published on a successful run is non-empty. -/
theorem empty_topic_indistinguishable_witness :
    parse_args ⟨some "abc123", none, none, none, none, some "", none⟩ =
      parse_args ⟨some "abc123", none, none, none, none, none, none⟩ ∧
    "device/dev42/wakeup" ≠ "" := by
  have h := empty_topic_indistinguishable
    ⟨some "abc123", none, none, none, none, some "", none⟩
    ⟨"dev42", "localhost", 1883, "", "", "", "remote_wakeup"⟩
    { connEvent := fun _ => some (ConnEvent.onConnectEv 0), publishStatus := 0,
      sendTime := 0, exc := none }
  refine ⟨h.1 rfl, h.2 "device/dev42/wakeup"
    (wakeup_payload "dev42" "remote_wakeup" 0) 1 ?_⟩
  decide

/-- Claim C10: a failed-connect notification (non-zero result code) never
sets the `connected` flag, so the wait is not cut short — the loop polls
through the full 50-tick (5 second) window and `connect_mqtt` returns
failure only after it elapses. -/
theorem failed_connect_full_wait (ev : Nat → Option ConnEvent)
    (h : ∀ i rc, ev i = some (ConnEvent.onConnectEv rc) → rc ≠ 0) :
    (∀ rc s, rc ≠ 0 → on_connect rc s = s) ∧
    connectWait ev = ({ connected := false }, maxWaitTicks) ∧
    connect_mqtt ev = (false, [Action.loopStart, Action.loopStop]) := by
  refine ⟨fun rc s hrc => by simp [on_connect, hrc],
    connectWait_no_success ev h, ?_⟩
  have hc : (connectWait ev).1.connected = false := by
    rw [connectWait_no_success ev h]
  simp [connect_mqtt, hc]

/-- Witness for C10: a stream of failed-connect notifications with code 1
leaves the flag false after the full 50 polls. -/
theorem failed_connect_full_wait_witness :
    on_connect 1 { connected := false } = { connected := false } ∧
    connectWait (fun _ => some (ConnEvent.onConnectEv 1)) =
      ({ connected := false }, maxWaitTicks) ∧
    connect_mqtt (fun _ => some (ConnEvent.onConnectEv 1)) =
      (false, [Action.loopStart, Action.loopStop]) := by
  have h := failed_connect_full_wait (fun _ => some (ConnEvent.onConnectEv 1))
    (by intro i rc hE; simp at hE; omega)
  exact ⟨h.1 1 _ (by decide), h.2.1, h.2.2⟩

end MqttWakeup
